import Mathlib

/-!
Verification of the IntelliLot parking pipeline core.

The Python sources are shallowly embedded over the rationals: every float
or int value of the code is modelled as a rational number, so that all
comparisons and divisions of the source are exact.  Fallible code is
modelled with explicit result constructors.  Each section names the source
file and function it embeds.
-/

namespace IntelliLot

/-! ## Geometry helpers

Embeds parking_detection/utils/helpers.py, function
calculate_box_overlap_with_slot (lines 104-137).
-/

/-- Embedding of calculate_box_overlap_with_slot: intersection of the
vehicle box with the slot rectangle, divided by the slot area.  Returns 0
when the clipped intersection is empty or when the slot area is not
positive, exactly as the Python code does. -/
def calculate_box_overlap_with_slot (vehicleBox : ℚ × ℚ × ℚ × ℚ)
    (slotPosition : ℚ × ℚ) (slotWidth slotHeight : ℚ) : ℚ :=
  let vx1 := vehicleBox.1
  let vy1 := vehicleBox.2.1
  let vx2 := vehicleBox.2.2.1
  let vy2 := vehicleBox.2.2.2
  let sx := slotPosition.1
  let sy := slotPosition.2
  let ix1 := max vx1 sx
  let iy1 := max vy1 sy
  let ix2 := min vx2 (sx + slotWidth)
  let iy2 := min vy2 (sy + slotHeight)
  if ix2 ≤ ix1 ∨ iy2 ≤ iy1 then 0
  else
    let intersectionArea := (ix2 - ix1) * (iy2 - iy1)
    let slotArea := slotWidth * slotHeight
    if 0 < slotArea then intersectionArea / slotArea else 0

/-- A point lies strictly inside the axis-aligned box (x1, y1, x2, y2). -/
def inBoxInterior (x1 y1 x2 y2 px py : ℚ) : Prop :=
  x1 < px ∧ px < x2 ∧ y1 < py ∧ py < y2

/-! ## Parking manager

Embeds parking_detection/core/parking_manager.py together with the
defaults of parking_detection/config/settings.py.  Python exceptions
(ValueError, IndexError) are modelled by the PyErr result constructors.
-/

/-- ParkingConfig.slot_width from settings.py. -/
def CONFIG_parking_slot_width : ℚ := 107

/-- ParkingConfig.slot_height from settings.py. -/
def CONFIG_parking_slot_height : ℚ := 48

/-- ParkingConfig.occupancy_threshold from settings.py. -/
def CONFIG_parking_occupancy_threshold : ℚ := 3 / 10

/-- Python value-or-default as used in ParkingManager.__init__
(x or default): None and 0 are falsy, so both select the default. -/
def pyOrDefault (v : Option ℚ) (d : ℚ) : ℚ :=
  match v with
  | none => d
  | some x => if x = 0 then d else x

/-- Python exceptions raised by the embedded parking-manager code. -/
inductive PyErr where
  /-- ValueError: No parking positions provided. -/
  | noPositions
  /-- ValueError: Invalid position format, carries the arity seen. -/
  | invalidFormat (n : ℕ)
  /-- IndexError while reading p[0]..p[3] of a rectangle position. -/
  | indexError
  /-- ValueError: tuple unpack of a slot position that is not a pair. -/
  | unpackError
  /-- Error raised by sum/len or max over an empty analysis window. -/
  | emptyWindow
  deriving DecidableEq

/-- State of a constructed ParkingManager instance. -/
structure ParkingManager where
  use_rectangles : Bool
  parking_positions : List (List ℚ)
  slot_dimensions : List (ℚ × ℚ)
  default_slot_width : ℚ
  default_slot_height : ℚ
  occupancy_threshold : ℚ
  occupancy_history : List ℕ
  detection_history : List ℕ
  deriving DecidableEq

/-- Embedding of ParkingManager._process_parking_positions (lines 65-99).
Format is detected from the arity of the first position: 2 selects point
form (shared default dimensions), 4 selects rectangle form (width and
height computed as p[2]-p[0] and p[3]-p[1] with no positivity check); any
other arity raises ValueError.  In rectangle form a later position with
fewer than 4 coordinates raises IndexError, as indexing does in Python. -/
def processParkingPositions (positions : List (List ℚ)) (dw dh : ℚ) :
    Except PyErr (Bool × List (List ℚ) × List (ℚ × ℚ)) :=
  match positions with
  | [] => .error .noPositions
  | first :: _ =>
    if first.length = 2 then
      .ok (false, positions, List.replicate positions.length (dw, dh))
    else if first.length = 4 then
      if positions.all (fun p => 4 ≤ p.length) then
        .ok (true,
          positions.map (fun p => [p.getD 0 0, p.getD 1 0]),
          positions.map (fun p => (p.getD 2 0 - p.getD 0 0, p.getD 3 0 - p.getD 1 0)))
      else .error .indexError
    else .error (.invalidFormat first.length)

/-- Embedding of ParkingManager.__init__ (lines 17-63) for the case of an
explicitly provided position list: apply or-defaulting to the optional
parameters, then process the positions. -/
def mkParkingManager (parking_positions : List (List ℚ))
    (slot_width slot_height occupancy_threshold : Option ℚ) :
    Except PyErr ParkingManager :=
  let dw := pyOrDefault slot_width CONFIG_parking_slot_width
  let dh := pyOrDefault slot_height CONFIG_parking_slot_height
  let t := pyOrDefault occupancy_threshold CONFIG_parking_occupancy_threshold
  match processParkingPositions parking_positions dw dh with
  | .error e => .error e
  | .ok (rect, pos, dims) =>
      .ok { use_rectangles := rect
            parking_positions := pos
            slot_dimensions := dims
            default_slot_width := dw
            default_slot_height := dh
            occupancy_threshold := t
            occupancy_history := []
            detection_history := [] }

/-- A vehicle detection tuple (x1, y1, x2, y2, confidence, class); the
detector class label is modelled as a number.  detect_occupancy reads only
the first four fields. -/
structure Detection where
  x1 : ℚ
  y1 : ℚ
  x2 : ℚ
  y2 : ℚ
  confidence : ℚ
  cls : ℕ
  deriving DecidableEq

/-- The inner detection loop of ParkingManager.detect_occupancy for one
slot (lines 121-134): walk the detections in order and stop at the first
one whose overlap strictly exceeds the threshold; the remaining detections
are then skipped (the break statement).  The max_overlap and best_vehicle
variables of the source are local debug state with no effect on the
returned occupancy, so they are not modelled. -/
def slotScan (threshold : ℚ) (pos : ℚ × ℚ) (w h : ℚ) : List Detection → Bool
  | [] => false
  | v :: rest =>
    let r := calculate_box_overlap_with_slot (v.x1, v.y1, v.x2, v.y2) pos w h
    if threshold < r then true else slotScan threshold pos w h rest

/-- Python tuple unpack of a stored slot position into exactly two
coordinates, as the call to calculate_box_overlap_with_slot performs;
any other arity raises ValueError. -/
def unpackSlot : List ℚ → Except PyErr (ℚ × ℚ)
  | [x, y] => .ok (x, y)
  | _ => .error .unpackError

/-- Occupancy for every slot in order; the stored slot position is
unpacked into exactly two coordinates as calculate_box_overlap_with_slot
does in Python, raising ValueError otherwise. -/
def occupancyScan (threshold : ℚ) :
    List (List ℚ × (ℚ × ℚ)) → List Detection → Except PyErr (List Bool)
  | [], _ => .ok []
  | (slot, dims) :: rest, ds =>
    match unpackSlot slot with
    | .error e => .error e
    | .ok (x, y) =>
      match occupancyScan threshold rest ds with
      | .error e => .error e
      | .ok occ => .ok (slotScan threshold (x, y) dims.1 dims.2 ds :: occ)

/-- Embedding of ParkingManager.detect_occupancy (lines 101-146): compute
the per-slot occupancy list and append the occupied count and the
detection count to the history lists. -/
def detectOccupancy (m : ParkingManager) (detections : List Detection) :
    Except PyErr (List Bool × ParkingManager) :=
  match occupancyScan m.occupancy_threshold
      (m.parking_positions.zip m.slot_dimensions) detections with
  | .error e => .error e
  | .ok occ =>
      .ok (occ,
        { m with
          occupancy_history := m.occupancy_history ++ [occ.countP (fun b => b)]
          detection_history := m.detection_history ++ [detections.length] })

/-! ## Occupancy trend analysis

Embeds ParkingManager.analyze_occupancy_patterns (lines 247-273) and
ParkingManager._calculate_trend (lines 275-289).
-/

/-- Least-squares slope of the degree-1 fit np.polyfit(x, data, 1)[0]
with x = 0, 1, ..., n-1, in exact rational arithmetic.  np.polyfit needs
at least 2 points and _calculate_trend only calls it in that case, where
the denominator is nonzero; rational division by zero gives 0. -/
def polyfitSlope (data : List ℚ) : ℚ :=
  let n : ℚ := data.length
  let xs : List ℚ := (List.range data.length).map (fun i => (i : ℚ))
  let sx := xs.sum
  let sy := data.sum
  let sxy := ((xs.zip data).map (fun p => p.1 * p.2)).sum
  let sxx := (xs.map (fun x => x * x)).sum
  (n * sxy - sx * sy) / (n * sxx - sx * sx)

/-- The three trend labels returned by _calculate_trend. -/
inductive Trend where
  | increasing
  | decreasing
  | stable
  deriving DecidableEq

/-- Embedding of ParkingManager._calculate_trend. -/
def calculate_trend (data : List ℚ) : Trend :=
  if data.length < 2 then .stable
  else
    let slope := polyfitSlope data
    if 1 / 10 < slope then .increasing
    else if slope < -(1 / 10) then .decreasing
    else .stable

/-- Result of analyze_occupancy_patterns.  The occupancy_std and
detection_stability fields of the source are numpy standard deviations,
irrational in general and mentioned by no claim, so they are left out of
the model; the remaining fields are kept. -/
inductive PatternAnalysis where
  | insufficient_data (frames_needed : ℕ)
  | analysis (window_size : ℕ) (average_occupancy : ℚ)
      (occupancy_trend : Trend) (peak_occupancy : ℚ) (min_occupancy : ℚ)
  deriving DecidableEq

/-- Embedding of analyze_occupancy_patterns: with fewer recorded cycles
than the window the explicit insufficient_data value is returned;
otherwise the statistics of the last window_size occupied counts are
computed.  Python slicing history[-w:] takes the whole list when w = 0;
sum/len and max over an empty window raise, which the emptyWindow error
models (reachable only with w = 0 and no history). -/
def analyze_occupancy_patterns (m : ParkingManager) (window_size : ℕ) :
    Except PyErr PatternAnalysis :=
  if m.occupancy_history.length < window_size then
    .ok (.insufficient_data window_size)
  else
    let hist : List ℚ := m.occupancy_history.map (fun n : ℕ => (n : ℚ))
    let recent := if window_size = 0 then hist
                  else hist.drop (hist.length - window_size)
    match recent with
    | [] => .error .emptyWindow
    | r0 :: rrest =>
      .ok (.analysis window_size (recent.sum / recent.length)
        (calculate_trend recent)
        ((r0 :: rrest).foldl max r0)
        ((r0 :: rrest).foldl min r0))

/-! ## Real-time Flask server

Embeds realtime_flask_server.py: the bounded processing queue with its
drop-on-full producers, and the worker path that turns one task into one
ResultRecord.  Identifiers, image payloads and error texts are
uninterpreted atoms modelled as numbers.
-/

/-- RealTimeFlaskConfig.PROCESSING_QUEUE_SIZE. -/
def PROCESSING_QUEUE_SIZE : ℕ := 20

/-- RealTimeFlaskConfig.RESULT_HISTORY_SIZE. -/
def RESULT_HISTORY_SIZE : ℕ := 1000

/-- A queued frame-processing task. -/
structure FrameTask where
  task_id : ℕ
  image_data : ℕ
  timestamp : ℕ
  camera_id : ℕ
  frame_id : ℕ
  deriving DecidableEq

/-- The parking_data block of a success record. -/
structure ParkingData where
  total_slots : ℕ
  occupied_slots : ℕ
  empty_slots : ℕ
  occupancy_rate : ℚ
  deriving DecidableEq

/-- One entry of results_history: a success record with parking data or a
failure record with the error text. -/
structure ResultRecord where
  task_id : ℕ
  frame_id : ℕ
  camera_id : ℕ
  timestamp : ℕ
  success : Bool
  parking_data : Option ParkingData
  error : Option ℕ
  deriving DecidableEq

/-- The counters of RealTimeFlaskServer.stats that the modelled paths
touch. -/
structure ServerStats where
  requests_received : ℕ
  frames_processed : ℕ
  processing_errors : ℕ
  queue_overflows : ℕ
  frames_fetched : ℕ
  fetch_errors : ℕ
  deriving DecidableEq

/-- The mutable server state shared by the producers and the workers. -/
structure ServerState where
  processing_queue : List FrameTask
  queue_maxsize : ℕ
  results_history : List ResultRecord
  result_history_maxlen : ℕ
  stats : ServerStats
  deriving DecidableEq

/-- queue.Queue.put_nowait: with a positive maxsize the call raises Full
(returns none) when the queue already holds maxsize items, otherwise it
appends; it never blocks. -/
def put_nowait (q : List FrameTask) (maxsize : ℕ) (task : FrameTask) :
    Option (List FrameTask) :=
  if 0 < maxsize ∧ maxsize ≤ q.length then none
  else some (q ++ [task])

/-- Embedding of the enqueue step of frame_fetcher_worker (lines
214-221): put_nowait inside try/except, counting frames_fetched on
success and queue_overflows on Full. -/
def fetcherEnqueue (s : ServerState) (task : FrameTask) : ServerState :=
  match put_nowait s.processing_queue s.queue_maxsize task with
  | some q2 =>
    { s with processing_queue := q2
             stats := { s.stats with frames_fetched := s.stats.frames_fetched + 1 } }
  | none =>
    { s with stats := { s.stats with queue_overflows := s.stats.queue_overflows + 1 } }

/-- HTTP reply of the upload endpoint enqueue step. -/
inductive UploadResponse where
  /-- 200 with the task id: frame queued for processing. -/
  | queued (task_id : ℕ)
  /-- 503: processing queue full. -/
  | queueFull
  deriving DecidableEq

/-- Embedding of the enqueue step of the upload_frame route (lines
337-354): put_nowait inside try/except, answering 503 and counting
queue_overflows on Full. -/
def uploadEnqueue (s : ServerState) (task : FrameTask) :
    ServerState × UploadResponse :=
  match put_nowait s.processing_queue s.queue_maxsize task with
  | some q2 => ({ s with processing_queue := q2 }, .queued task.task_id)
  | none =>
    ({ s with stats := { s.stats with queue_overflows := s.stats.queue_overflows + 1 } },
      .queueFull)

/-- collections.deque append with maxlen: oldest entries are evicted so
at most maxlen remain. -/
def dequeAppend (maxlen : ℕ) (l : List ResultRecord) (r : ResultRecord) :
    List ResultRecord :=
  let l2 := l ++ [r]
  l2.drop (l2.length - maxlen)

/-- Embedding of RealTimeFlaskServer.process_frame_with_yolo (lines
409-485).  The decode-and-detect step is summarised by its outcome: the
statistics it produced, or the text of the exception it raised.  On
success a success record is appended and frames_processed is bumped; on
any exception a failure record carrying the original task id, camera id,
timestamp and error text is appended and processing_errors is bumped.
Both branches return the record: the function never re-raises. -/
def process_frame_with_yolo (s : ServerState) (task : FrameTask)
    (outcome : Except ℕ ParkingData) : ServerState × ResultRecord :=
  match outcome with
  | .ok pd =>
    let r : ResultRecord :=
      { task_id := task.task_id, frame_id := task.frame_id
        camera_id := task.camera_id, timestamp := task.timestamp
        success := true, parking_data := some pd, error := none }
    ({ s with
        results_history := dequeAppend s.result_history_maxlen s.results_history r
        stats := { s.stats with frames_processed := s.stats.frames_processed + 1 } }, r)
  | .error msg =>
    let r : ResultRecord :=
      { task_id := task.task_id, frame_id := task.frame_id
        camera_id := task.camera_id, timestamp := task.timestamp
        success := false, parking_data := none, error := some msg }
    ({ s with
        results_history := dequeAppend s.result_history_maxlen s.results_history r
        stats := { s.stats with processing_errors := s.stats.processing_errors + 1 } }, r)

/-- One iteration of RealTimeFlaskServer.processing_worker (lines
509-533): dequeue with timeout (an empty queue just continues), process
the task, continue with the next state.  A processing failure is already
absorbed by process_frame_with_yolo, so the step is a total function. -/
def processing_worker_step (s : ServerState)
    (outcome : Except ℕ ParkingData) : ServerState :=
  match s.processing_queue with
  | [] => s
  | task :: restq =>
    (process_frame_with_yolo { s with processing_queue := restq } task outcome).1

/-! ## Edge server

Embeds edge_server.py: AuthManager (token validity and refresh) and the
retry loop of CameraWorker.send_to_updateraw.  The network is an oracle:
each attempt observes an outcome, and each re-authentication attempt an
outcome of its own.
-/

/-- AuthManager state: bearer token (None before the first login) and
absolute expiry instant. -/
structure AuthManager where
  token : Option ℕ
  token_expiry : ℚ
  deriving DecidableEq

/-- Embedding of AuthManager.login: on HTTP 200 the environment supplies
the new token with its expires_in and the call stores token_expiry as
now + expires_in and returns True; on failure it returns False leaving
the state untouched. -/
def login (a : AuthManager) (now : ℚ) (outcome : Option (ℕ × ℚ)) :
    Bool × AuthManager :=
  match outcome with
  | some te => (true, { token := some te.1, token_expiry := now + te.2 })
  | none => (false, a)

/-- Embedding of AuthManager.is_token_valid (lines 70-74): a present
token is valid while now is strictly below expiry minus the 300 second
buffer. -/
def is_token_valid (a : AuthManager) (now : ℚ) : Bool :=
  match a.token with
  | none => false
  | some _ => decide (now < a.token_expiry - 300)

/-- Embedding of AuthManager.ensure_authenticated (lines 76-81); the
third component counts the login calls performed (0 or 1). -/
def ensure_authenticated (a : AuthManager) (now : ℚ)
    (loginOutcome : Option (ℕ × ℚ)) : Bool × AuthManager × ℕ :=
  if is_token_valid a now then (true, a, 0)
  else
    let p := login a now loginOutcome
    (p.1, p.2, 1)

/-- CameraWorker default retry_attempts (server_config fallback 3). -/
def retry_attempts_default : ℕ := 3

/-- CameraWorker default retry_delay in seconds (fallback 5). -/
def retry_delay_default : ℚ := 5

/-- What one POST of the retry loop observes. -/
inductive AttemptOutcome where
  /-- A response with this HTTP status code. -/
  | http (status : ℕ)
  /-- requests raised a RequestException (timeout, connection error). -/
  | netFailure
  deriving DecidableEq

/-- Trace of one call of the send retry loop: final verdict, number of
attempts actually made, number of re-authentications performed, and
number of retry_delay sleeps taken. -/
structure SendTrace where
  success : Bool
  attempts_made : ℕ
  reauths : ℕ
  delays : ℕ
  deriving DecidableEq

/-- Embedding of the retry loop of CameraWorker.send_to_updateraw (lines
248-301).  The list holds the outcome each remaining attempt would
observe; the loop runs for attempt in range(retry_attempts), so the
top-level call receives a list of length retry_attempts.  reauth n is the
verdict of the n-th re-authentication triggered by a 401.  On 201 the
send succeeds at once.  On 401 the token is dropped and one
re-authentication runs: if it fails the send returns False immediately,
otherwise the loop continues with the refreshed credential.  Any other
status logs and falls through to the next attempt with no delay.  A
network failure sleeps retry_delay before the next attempt, except after
the final one; when every attempt is exhausted the send reports
failure. -/
def send_to_updateraw (reauth : ℕ → Bool) :
    ℕ → List AttemptOutcome → SendTrace
  | _, [] => { success := false, attempts_made := 0, reauths := 0, delays := 0 }
  | ndone, o :: rest =>
    match o with
    | .http status =>
      if status = 201 then
        { success := true, attempts_made := 1, reauths := 0, delays := 0 }
      else if status = 401 then
        if reauth ndone then
          let t := send_to_updateraw reauth (ndone + 1) rest
          { success := t.success, attempts_made := t.attempts_made + 1
            reauths := t.reauths + 1, delays := t.delays }
        else { success := false, attempts_made := 1, reauths := 1, delays := 0 }
      else
        let t := send_to_updateraw reauth ndone rest
        { success := t.success, attempts_made := t.attempts_made + 1
          reauths := t.reauths, delays := t.delays }
    | .netFailure =>
      match rest with
      | [] => { success := false, attempts_made := 1, reauths := 0, delays := 0 }
      | r1 :: r2 =>
        let t := send_to_updateraw reauth ndone (r1 :: r2)
        { success := t.success, attempts_made := t.attempts_made + 1
          reauths := t.reauths, delays := t.delays + 1 }

-- ================================================================
-- Theorems
-- ================================================================

/-- The overlap value is nonnegative. -/
lemma overlap_nonneg (vb : ℚ × ℚ × ℚ × ℚ) (sp : ℚ × ℚ) (w h : ℚ) :
    0 ≤ calculate_box_overlap_with_slot vb sp w h := by
  unfold calculate_box_overlap_with_slot
  dsimp only
  split
  · exact le_refl 0
  · rename_i hcond
    push_neg at hcond
    obtain ⟨h1, h2⟩ := hcond
    split
    · rename_i hpos
      apply div_nonneg _ (le_of_lt hpos)
      apply mul_nonneg <;> linarith
    · exact le_refl 0

/-- The overlap value is at most 1 when the slot has positive width and
height, because the clipped intersection fits inside the slot. -/
lemma overlap_le_one (vb : ℚ × ℚ × ℚ × ℚ) (sp : ℚ × ℚ) (w h : ℚ)
    (hw : 0 < w) (hh : 0 < h) :
    calculate_box_overlap_with_slot vb sp w h ≤ 1 := by
  unfold calculate_box_overlap_with_slot
  dsimp only
  split
  · exact zero_le_one
  · rename_i hcond
    push_neg at hcond
    obtain ⟨h1, h2⟩ := hcond
    have hwh : (0 : ℚ) < w * h := mul_pos hw hh
    rw [if_pos hwh]
    rw [div_le_one hwh]
    have hx : min vb.2.2.1 (sp.1 + w) - max vb.1 sp.1 ≤ w := by
      have := le_max_right vb.1 sp.1
      have := min_le_right vb.2.2.1 (sp.1 + w)
      linarith
    have hy : min vb.2.2.2 (sp.2 + h) - max vb.2.1 sp.2 ≤ h := by
      have := le_max_right vb.2.1 sp.2
      have := min_le_right vb.2.2.2 (sp.2 + h)
      linarith
    have hx0 : 0 ≤ min vb.2.2.1 (sp.1 + w) - max vb.1 sp.1 := by linarith
    have hy0 : 0 ≤ min vb.2.2.2 (sp.2 + h) - max vb.2.1 sp.2 := by linarith
    calc (min vb.2.2.1 (sp.1 + w) - max vb.1 sp.1) *
          (min vb.2.2.2 (sp.2 + h) - max vb.2.1 sp.2)
        ≤ w * (min vb.2.2.2 (sp.2 + h) - max vb.2.1 sp.2) := by
          exact mul_le_mul_of_nonneg_right hx hy0
      _ ≤ w * h := by exact mul_le_mul_of_nonneg_left hy (le_of_lt hw)

/-- If the interiors of the vehicle box and the slot rectangle share no
point, the overlap value is 0. -/
lemma overlap_disjoint_eq_zero (vx1 vy1 vx2 vy2 sx sy w h : ℚ)
    (hdisj : ∀ px py : ℚ, ¬(inBoxInterior vx1 vy1 vx2 vy2 px py ∧
      inBoxInterior sx sy (sx + w) (sy + h) px py)) :
    calculate_box_overlap_with_slot (vx1, vy1, vx2, vy2) (sx, sy) w h = 0 := by
  unfold calculate_box_overlap_with_slot
  dsimp only
  split
  · rfl
  · rename_i hcond
    push_neg at hcond
    obtain ⟨h1, h2⟩ := hcond
    exfalso
    set ix1 := max vx1 sx with hix1
    set iy1 := max vy1 sy with hiy1
    set ix2 := min vx2 (sx + w) with hix2
    set iy2 := min vy2 (sy + h) with hiy2
    apply hdisj ((ix1 + ix2) / 2) ((iy1 + iy2) / 2)
    have hmx1 : ix1 < (ix1 + ix2) / 2 := by linarith
    have hmx2 : (ix1 + ix2) / 2 < ix2 := by linarith
    have hmy1 : iy1 < (iy1 + iy2) / 2 := by linarith
    have hmy2 : (iy1 + iy2) / 2 < iy2 := by linarith
    have hvx1 : vx1 ≤ ix1 := le_max_left _ _
    have hsx1 : sx ≤ ix1 := le_max_right _ _
    have hvx2 : ix2 ≤ vx2 := min_le_left _ _
    have hsx2 : ix2 ≤ sx + w := min_le_right _ _
    have hvy1 : vy1 ≤ iy1 := le_max_left _ _
    have hsy1 : sy ≤ iy1 := le_max_right _ _
    have hvy2 : iy2 ≤ vy2 := min_le_left _ _
    have hsy2 : iy2 ≤ sy + h := min_le_right _ _
    constructor
    · exact ⟨by linarith, by linarith, by linarith, by linarith⟩
    · exact ⟨by linarith, by linarith, by linarith, by linarith⟩

/-- If the vehicle box fully contains the slot rectangle, the overlap
value is exactly 1 (the slot has positive width and height). -/
lemma overlap_contains_eq_one (vx1 vy1 vx2 vy2 sx sy w h : ℚ)
    (hw : 0 < w) (hh : 0 < h)
    (hc1 : vx1 ≤ sx) (hc2 : vy1 ≤ sy)
    (hc3 : sx + w ≤ vx2) (hc4 : sy + h ≤ vy2) :
    calculate_box_overlap_with_slot (vx1, vy1, vx2, vy2) (sx, sy) w h = 1 := by
  unfold calculate_box_overlap_with_slot
  dsimp only
  have hix1 : max vx1 sx = sx := max_eq_right hc1
  have hiy1 : max vy1 sy = sy := max_eq_right hc2
  have hix2 : min vx2 (sx + w) = sx + w := min_eq_right hc3
  have hiy2 : min vy2 (sy + h) = sy + h := min_eq_right hc4
  rw [hix1, hiy1, hix2, hiy2]
  have hne : ¬(sx + w ≤ sx ∨ sy + h ≤ sy) := by
    push_neg
    constructor <;> linarith
  rw [if_neg hne]
  have hwh : (0 : ℚ) < w * h := mul_pos hw hh
  rw [if_pos hwh]
  have : (sx + w - sx) * (sy + h - sy) = w * h := by ring
  rw [this]
  exact div_self (ne_of_gt hwh)

/-- C1: for every slot rectangle with positive width and height and every
detection box, the overlap computed by calculate_box_overlap_with_slot
lies in the interval from 0 to 1; it is 0 when the two rectangles share no
interior point, and it is 1 whenever the detection box fully contains the
slot rectangle. -/
theorem overlap_with_slot_spec (vx1 vy1 vx2 vy2 sx sy w h : ℚ)
    (hw : 0 < w) (hh : 0 < h) :
    (0 ≤ calculate_box_overlap_with_slot (vx1, vy1, vx2, vy2) (sx, sy) w h ∧
      calculate_box_overlap_with_slot (vx1, vy1, vx2, vy2) (sx, sy) w h ≤ 1) ∧
    ((∀ px py : ℚ, ¬(inBoxInterior vx1 vy1 vx2 vy2 px py ∧
        inBoxInterior sx sy (sx + w) (sy + h) px py)) →
      calculate_box_overlap_with_slot (vx1, vy1, vx2, vy2) (sx, sy) w h = 0) ∧
    ((vx1 ≤ sx ∧ vy1 ≤ sy ∧ sx + w ≤ vx2 ∧ sy + h ≤ vy2) →
      calculate_box_overlap_with_slot (vx1, vy1, vx2, vy2) (sx, sy) w h = 1) := by
  refine ⟨⟨overlap_nonneg _ _ _ _, overlap_le_one _ _ _ _ hw hh⟩, ?_, ?_⟩
  · intro hdisj
    exact overlap_disjoint_eq_zero vx1 vy1 vx2 vy2 sx sy w h hdisj
  · rintro ⟨hc1, hc2, hc3, hc4⟩
    exact overlap_contains_eq_one vx1 vy1 vx2 vy2 sx sy w h hw hh hc1 hc2 hc3 hc4

/-- Witness for C1 at a concrete geometry: slot at (0, 0) of size 100 by
100, vehicle box (10, 10, 60, 60). -/
theorem overlap_with_slot_spec_witness :
    (0 : ℚ) < 100 ∧
    ((0 ≤ calculate_box_overlap_with_slot (10, 10, 60, 60) (0, 0) 100 100 ∧
      calculate_box_overlap_with_slot (10, 10, 60, 60) (0, 0) 100 100 ≤ 1) ∧
    ((∀ px py : ℚ, ¬(inBoxInterior 10 10 60 60 px py ∧
        inBoxInterior 0 0 (0 + 100) (0 + 100) px py)) →
      calculate_box_overlap_with_slot (10, 10, 60, 60) (0, 0) 100 100 = 0) ∧
    ((10 ≤ (0 : ℚ) ∧ 10 ≤ (0 : ℚ) ∧ (0 : ℚ) + 100 ≤ 60 ∧ (0 : ℚ) + 100 ≤ 60) →
      calculate_box_overlap_with_slot (10, 10, 60, 60) (0, 0) 100 100 = 1)) :=
  ⟨by norm_num, overlap_with_slot_spec 10 10 60 60 0 0 100 100 (by norm_num) (by norm_num)⟩

/-- The per-slot loop returns true exactly when some detection in the
list has overlap strictly above the threshold. -/
lemma slotScan_eq_any (t : ℚ) (pos : ℚ × ℚ) (w h : ℚ) (ds : List Detection) :
    slotScan t pos w h ds =
      ds.any (fun v =>
        decide (t < calculate_box_overlap_with_slot (v.x1, v.y1, v.x2, v.y2) pos w h)) := by
  induction ds with
  | nil => rfl
  | cons v rest ih =>
    simp only [slotScan, List.any_cons]
    split
    · rename_i hlt
      simp [hlt]
    · rename_i hlt
      simp only [ih]
      simp [hlt]

/-- occupancyScan, when it succeeds, produces one boolean per slot, and
the boolean at index i is the slotScan verdict for slot i. -/
lemma occupancyScan_spec (t : ℚ) (pairs : List (List ℚ × (ℚ × ℚ)))
    (ds : List Detection) (occ : List Bool)
    (hok : occupancyScan t pairs ds = .ok occ) :
    occ.length = pairs.length ∧
    ∀ i x y w h, pairs.getD i ([], (0, 0)) = ([x, y], (w, h)) →
      occ.getD i false = slotScan t (x, y) w h ds := by
  induction pairs generalizing occ with
  | nil =>
    simp only [occupancyScan] at hok
    cases hok
    refine ⟨rfl, ?_⟩
    intro i x y w h hpair
    simp [List.getD] at hpair
  | cons pd rest ih =>
    obtain ⟨slot, dims⟩ := pd
    simp only [occupancyScan] at hok
    cases hs : unpackSlot slot with
    | error e =>
      rw [hs] at hok
      simp at hok
    | ok xy =>
      obtain ⟨x0, y0⟩ := xy
      have hslot : slot = [x0, y0] := by
        revert hs
        unfold unpackSlot
        match slot with
        | [] => intro hs; cases hs
        | [a] => intro hs; cases hs
        | [a, b] => intro hs; injection hs with hs2; injection hs2 with h1 h2; rw [h1, h2]
        | a :: b :: c :: r => intro hs; cases hs
      rw [hs] at hok
      cases hok2 : occupancyScan t rest ds with
      | error e =>
        rw [hok2] at hok
        simp at hok
      | ok occ0 =>
        rw [hok2] at hok
        simp only at hok
        injection hok with hok
        subst hok
        obtain ⟨hlen, hidx⟩ := ih occ0 hok2
        refine ⟨by simp [hlen], ?_⟩
        intro i x y w h hpair
        cases i with
        | zero =>
          simp only [List.getD_cons_zero] at hpair ⊢
          have h1 : slot = [x, y] := congrArg Prod.fst hpair
          have h2 : dims = (w, h) := congrArg Prod.snd hpair
          rw [hslot] at h1
          simp at h1
          obtain ⟨hx, hy⟩ := h1
          subst hx
          subst hy
          rw [h2]
        | succ j =>
          simp only [List.getD_cons_succ] at hpair ⊢
          exact hidx j x y w h hpair

/-- When detect_occupancy succeeds, the boolean reported for slot i is
the verdict of the per-slot loop over the detections. -/
lemma detectOccupancy_occ (m : ParkingManager) (ds : List Detection)
    (occ : List Bool) (m' : ParkingManager)
    (hok : detectOccupancy m ds = .ok (occ, m'))
    (i : ℕ) (x y w h : ℚ)
    (hi : i < m.parking_positions.length)
    (hj : i < m.slot_dimensions.length)
    (hx : m.parking_positions.getD i [] = [x, y])
    (hd : m.slot_dimensions.getD i (0, 0) = (w, h)) :
    occ.getD i false = slotScan m.occupancy_threshold (x, y) w h ds := by
  unfold detectOccupancy at hok
  cases hscan : occupancyScan m.occupancy_threshold
      (m.parking_positions.zip m.slot_dimensions) ds with
  | error e =>
    rw [hscan] at hok
    simp at hok
  | ok occ0 =>
    rw [hscan] at hok
    simp only at hok
    injection hok with hok
    have hocc : occ0 = occ := congrArg Prod.fst hok
    subst hocc
    obtain ⟨hlen, hidx⟩ := occupancyScan_spec _ _ _ _ hscan
    apply hidx i x y w h
    have hiz : i < (m.parking_positions.zip m.slot_dimensions).length := by
      rw [List.length_zip]
      omega
    rw [List.getD_eq_getElem _ _ hiz, List.getElem_zip]
    rw [List.getD_eq_getElem _ _ hi] at hx
    rw [List.getD_eq_getElem _ _ hj] at hd
    rw [hx, hd]

/-- C2: detect_occupancy marks a slot occupied exactly when some
detection has overlap strictly greater than the engine threshold; an
overlap exactly equal to the threshold leaves the slot unoccupied
(checked concretely at threshold 0.30 with overlaps 0.30 and 0.300001);
and once one detection crosses the threshold the remaining detections for
that slot are skipped, so they cannot change the verdict. -/
theorem detect_occupancy_strict_threshold :
    (∀ (m : ParkingManager) (ds : List Detection) (occ : List Bool)
        (m' : ParkingManager) (i : ℕ) (x y w h : ℚ),
      detectOccupancy m ds = .ok (occ, m') →
      i < m.parking_positions.length →
      i < m.slot_dimensions.length →
      m.parking_positions.getD i [] = [x, y] →
      m.slot_dimensions.getD i (0, 0) = (w, h) →
      (occ.getD i false = true ↔ ∃ v ∈ ds,
        m.occupancy_threshold <
          calculate_box_overlap_with_slot (v.x1, v.y1, v.x2, v.y2) (x, y) w h)) ∧
    (∀ (t : ℚ) (pos : ℚ × ℚ) (w h : ℚ) (pre sk sk' : List Detection)
        (v : Detection),
      t < calculate_box_overlap_with_slot (v.x1, v.y1, v.x2, v.y2) pos w h →
      slotScan t pos w h (pre ++ v :: sk) = slotScan t pos w h (pre ++ v :: sk')) ∧
    slotScan (3 / 10) (0, 0) 100 100 [⟨0, 0, 100, 30, 9 / 10, 0⟩] = false ∧
    slotScan (3 / 10) (0, 0) 100 100 [⟨0, 0, 100, 300001 / 10000, 9 / 10, 0⟩] = true := by
  refine ⟨?_, ?_, ?_, ?_⟩
  · intro m ds occ m' i x y w h hok hi hj hx hd
    rw [detectOccupancy_occ m ds occ m' hok i x y w h hi hj hx hd]
    rw [slotScan_eq_any]
    simp
  · intro t pos w h pre sk sk' v hv
    rw [slotScan_eq_any, slotScan_eq_any]
    simp [hv]
  · simp only [slotScan, calculate_box_overlap_with_slot]
    norm_num
  · simp only [slotScan, calculate_box_overlap_with_slot]
    norm_num

/-- Witness for C2 at a concrete engine: one rectangle slot of size 100
by 100 at the origin, threshold 0.30, one detection of overlap
0.300001. -/
theorem detect_occupancy_strict_threshold_witness :
    detectOccupancy
        { use_rectangles := true, parking_positions := [[0, 0]]
          slot_dimensions := [(100, 100)], default_slot_width := 107
          default_slot_height := 48, occupancy_threshold := 3 / 10
          occupancy_history := [], detection_history := [] }
        [⟨0, 0, 100, 300001 / 10000, 9 / 10, 0⟩] =
      .ok ([true],
        { use_rectangles := true, parking_positions := [[0, 0]]
          slot_dimensions := [(100, 100)], default_slot_width := 107
          default_slot_height := 48, occupancy_threshold := 3 / 10
          occupancy_history := [1], detection_history := [1] }) ∧
    ([true].getD 0 false = true ↔
      ∃ v ∈ [(⟨0, 0, 100, 300001 / 10000, 9 / 10, 0⟩ : Detection)],
        ({ use_rectangles := true, parking_positions := [[0, 0]]
           slot_dimensions := [(100, 100)], default_slot_width := 107
           default_slot_height := 48, occupancy_threshold := 3 / 10
           occupancy_history := [], detection_history := [] :
              ParkingManager }).occupancy_threshold <
          calculate_box_overlap_with_slot (v.x1, v.y1, v.x2, v.y2) (0, 0) 100 100) := by
  have hok : detectOccupancy
      { use_rectangles := true, parking_positions := [[0, 0]]
        slot_dimensions := [(100, 100)], default_slot_width := 107
        default_slot_height := 48, occupancy_threshold := 3 / 10
        occupancy_history := [], detection_history := [] }
      [⟨0, 0, 100, 300001 / 10000, 9 / 10, 0⟩] =
      .ok ([true],
        { use_rectangles := true, parking_positions := [[0, 0]]
          slot_dimensions := [(100, 100)], default_slot_width := 107
          default_slot_height := 48, occupancy_threshold := 3 / 10
          occupancy_history := [1], detection_history := [1] }) := by
    simp only [detectOccupancy, occupancyScan, unpackSlot, slotScan,
      calculate_box_overlap_with_slot]
    norm_num
  refine ⟨hok, ?_⟩
  exact detect_occupancy_strict_threshold.1 _ _ _ _ 0 0 0 100 100 hok
    (by simp) (by simp) (by simp) (by simp)

/-- pyOrDefault never yields zero when the default is nonzero. -/
lemma pyOrDefault_ne_zero (v : Option ℚ) (d : ℚ) (hd : d ≠ 0) :
    pyOrDefault v d ≠ 0 := by
  unfold pyOrDefault
  match v with
  | none => exact hd
  | some x =>
    by_cases hx : x = 0
    · simp [hx, hd]
    · simp [hx]

/-- Counterexample to C3 as stated: the rectangle-form position list
[(0, 0, 0, 0)] has x2 ≤ x1 and y2 ≤ y1 for its only slot, yet the
constructor returns an engine (with width 0 and height 0) instead of
failing. -/
theorem constructor_accepts_degenerate_rectangle :
    mkParkingManager [[0, 0, 0, 0]] none none none =
      .ok { use_rectangles := true, parking_positions := [[0, 0]]
            slot_dimensions := [(0, 0)], default_slot_width := 107
            default_slot_height := 48, occupancy_threshold := 3 / 10
            occupancy_history := [], detection_history := [] } := by
  simp only [mkParkingManager, processParkingPositions, pyOrDefault,
    CONFIG_parking_slot_width, CONFIG_parking_slot_height,
    CONFIG_parking_occupancy_threshold]
  norm_num

/-- C3 amended: engine construction succeeds exactly when the position
list is nonempty and the first position has arity 2, or arity 4 with
every position holding at least 4 coordinates; so construction fails on
an empty list and on arity neither 2 nor 4, but a rectangle with x2 at or
below x1 or y2 at or below y1 is accepted (no positivity check exists in
_process_parking_positions). -/
theorem constructor_failure_modes (positions : List (List ℚ))
    (sw sh t : Option ℚ) :
    (∃ m, mkParkingManager positions sw sh t = .ok m) ↔
      (positions ≠ [] ∧
        ((positions.headD []).length = 2 ∨
          ((positions.headD []).length = 4 ∧ ∀ p ∈ positions, 4 ≤ p.length))) := by
  unfold mkParkingManager processParkingPositions
  match positions with
  | [] => simp
  | first :: rest =>
    by_cases h2 : first.length = 2
    · simp [h2]
    · by_cases h4 : first.length = 4
      · by_cases hall : ∀ p ∈ first :: rest, 4 ≤ p.length
        · have hall2 : (first :: rest).all (fun p => 4 ≤ p.length) = true := by
            rw [List.all_eq_true]
            intro p hp
            exact decide_eq_true (hall p hp)
          simp [h2, h4, hall2]
          exact fun a ha => hall a (List.mem_cons_of_mem first ha)
        · push_neg at hall
          obtain ⟨p, hp, hlen⟩ := hall
          have hall2 : (first :: rest).all (fun p => 4 ≤ p.length) = false := by
            rw [List.all_eq_false]
            exact ⟨p, hp, by simpa using hlen⟩
          have hrest : p ∈ rest := by
            rcases List.mem_cons.mp hp with hfst | hr
            · exfalso
              rw [hfst] at hlen
              omega
            · exact hr
          simp [h2, h4, hall2]
          exact ⟨p, hrest, by omega⟩
      · simp [h2, h4]

/-- C10: None and 0 are both falsy in the or-defaulting of the
constructor, so passing zeros is the same as passing nothing, the
effective threshold and default slot dimensions of a constructed engine
are never zero, and with zero arguments they are the configured defaults
0.30, 107 and 48. -/
theorem constructor_zero_defaulting :
    (∀ positions, mkParkingManager positions (some 0) (some 0) (some 0) =
        mkParkingManager positions none none none) ∧
    (∀ positions sw sh t m, mkParkingManager positions sw sh t = .ok m →
      m.occupancy_threshold ≠ 0 ∧ m.default_slot_width ≠ 0 ∧
        m.default_slot_height ≠ 0) ∧
    (∀ positions m,
      mkParkingManager positions (some 0) (some 0) (some 0) = .ok m →
      m.occupancy_threshold = 3 / 10 ∧ m.default_slot_width = 107 ∧
        m.default_slot_height = 48) := by
  have hz : ∀ d : ℚ, pyOrDefault (some 0) d = pyOrDefault none d := by
    intro d
    simp [pyOrDefault]
  refine ⟨?_, ?_, ?_⟩
  · intro positions
    unfold mkParkingManager
    rw [hz, hz, hz]
  · intro positions sw sh t m hok
    simp only [mkParkingManager] at hok
    cases hp : processParkingPositions positions
        (pyOrDefault sw CONFIG_parking_slot_width)
        (pyOrDefault sh CONFIG_parking_slot_height) with
    | error e =>
      rw [hp] at hok
      simp at hok
    | ok v =>
      obtain ⟨rect, pos, dims⟩ := v
      rw [hp] at hok
      simp only at hok
      injection hok with hok
      subst hok
      refine ⟨?_, ?_, ?_⟩
      · exact pyOrDefault_ne_zero t _ (by norm_num [CONFIG_parking_occupancy_threshold])
      · exact pyOrDefault_ne_zero sw _ (by norm_num [CONFIG_parking_slot_width])
      · exact pyOrDefault_ne_zero sh _ (by norm_num [CONFIG_parking_slot_height])
  · intro positions m hok
    simp only [mkParkingManager] at hok
    cases hp : processParkingPositions positions
        (pyOrDefault (some 0) CONFIG_parking_slot_width)
        (pyOrDefault (some 0) CONFIG_parking_slot_height) with
    | error e =>
      rw [hp] at hok
      simp at hok
    | ok v =>
      obtain ⟨rect, pos, dims⟩ := v
      rw [hp] at hok
      simp only at hok
      injection hok with hok
      subst hok
      refine ⟨?_, ?_, ?_⟩ <;>
        simp [pyOrDefault, CONFIG_parking_occupancy_threshold,
          CONFIG_parking_slot_width, CONFIG_parking_slot_height]

/-- Witness for C10 at the concrete point-form position list [(0, 0)]:
zeros construct the engine with the default threshold and dimensions. -/
theorem constructor_zero_defaulting_witness :
    mkParkingManager [[0, 0]] (some 0) (some 0) (some 0) =
        mkParkingManager [[0, 0]] none none none ∧
    (({ use_rectangles := false, parking_positions := [[0, 0]], slot_dimensions := [(107, 48)], default_slot_width := 107, default_slot_height := 48, occupancy_threshold := 3 / 10, occupancy_history := [], detection_history := [] : ParkingManager }).occupancy_threshold ≠ 0 ∧
      ({ use_rectangles := false, parking_positions := [[0, 0]], slot_dimensions := [(107, 48)], default_slot_width := 107, default_slot_height := 48, occupancy_threshold := 3 / 10, occupancy_history := [], detection_history := [] : ParkingManager }).default_slot_width ≠ 0 ∧
      ({ use_rectangles := false, parking_positions := [[0, 0]], slot_dimensions := [(107, 48)], default_slot_width := 107, default_slot_height := 48, occupancy_threshold := 3 / 10, occupancy_history := [], detection_history := [] : ParkingManager }).default_slot_height ≠ 0) := by
  have hok : mkParkingManager [[0, 0]] (some 0) (some 0) (some 0) =
      .ok { use_rectangles := false, parking_positions := [[0, 0]]
            slot_dimensions := [(107, 48)], default_slot_width := 107
            default_slot_height := 48, occupancy_threshold := 3 / 10
            occupancy_history := [], detection_history := [] } := by
    simp only [mkParkingManager, processParkingPositions, pyOrDefault,
      CONFIG_parking_slot_width, CONFIG_parking_slot_height,
      CONFIG_parking_occupancy_threshold]
    norm_num
  exact ⟨constructor_zero_defaulting.1 [[0, 0]],
    constructor_zero_defaulting.2.1 [[0, 0]] (some 0) (some 0) (some 0) _ hok⟩

/-- C9: with fewer recorded cycles than the window,
analyze_occupancy_patterns answers the explicit insufficient_data value,
not a trend; with a positive window and enough cycles it reports the
trend of the last window occupied counts, where _calculate_trend
classifies the degree-1 least-squares slope as increasing above 0.1,
decreasing below -0.1 and stable otherwise, with fewer than 2 points also
stable; and the constant series [10, 10, 10, 10, 10] with window 5 yields
the stable trend. -/
theorem analyze_occupancy_patterns_spec :
    (∀ (m : ParkingManager) (w : ℕ), m.occupancy_history.length < w →
      analyze_occupancy_patterns m w = .ok (.insufficient_data w)) ∧
    (∀ (m : ParkingManager) (w : ℕ), 0 < w → w ≤ m.occupancy_history.length →
      ∃ avg peak mn, analyze_occupancy_patterns m w =
        .ok (.analysis w avg
          (calculate_trend ((m.occupancy_history.map (fun n : ℕ => (n : ℚ))).drop
            (m.occupancy_history.length - w))) peak mn)) ∧
    (∀ data : List ℚ, data.length < 2 → calculate_trend data = .stable) ∧
    (∀ data : List ℚ, 2 ≤ data.length →
      (calculate_trend data = .increasing ↔ 1 / 10 < polyfitSlope data) ∧
      (calculate_trend data = .decreasing ↔ polyfitSlope data < -(1 / 10)) ∧
      (calculate_trend data = .stable ↔
        -(1 / 10) ≤ polyfitSlope data ∧ polyfitSlope data ≤ 1 / 10)) ∧
    (∀ m : ParkingManager, m.occupancy_history = [10, 10, 10, 10, 10] →
      analyze_occupancy_patterns m 5 = .ok (.analysis 5 10 .stable 10 10)) := by
  refine ⟨?_, ?_, ?_, ?_, ?_⟩
  · intro m w hlt
    unfold analyze_occupancy_patterns
    rw [if_pos hlt]
  · intro m w hw0 hwle
    have hmaplen : (m.occupancy_history.map (fun n : ℕ => (n : ℚ))).length =
        m.occupancy_history.length := List.length_map _ _
    simp only [analyze_occupancy_patterns]
    rw [if_neg (not_lt.mpr hwle), if_neg (Nat.pos_iff_ne_zero.mp hw0), hmaplen]
    cases hdrop : (m.occupancy_history.map (fun n : ℕ => (n : ℚ))).drop
        (m.occupancy_history.length - w) with
    | nil =>
      exfalso
      have hd := congrArg List.length hdrop
      rw [List.length_drop, hmaplen] at hd
      simp at hd
      omega
    | cons r0 rrest =>
      exact ⟨_, _, _, rfl⟩
  · intro data hlen
    unfold calculate_trend
    rw [if_pos hlen]
  · intro data hlen
    unfold calculate_trend
    rw [if_neg (not_lt.mpr hlen)]
    by_cases h1 : 1 / 10 < polyfitSlope data
    · rw [if_pos h1]
      refine ⟨⟨fun _ => h1, fun _ => rfl⟩, ⟨?_, ?_⟩, ⟨?_, ?_⟩⟩
      · intro heq
        simp at heq
      · intro hdec
        exfalso
        linarith
      · intro heq
        simp at heq
      · intro hrange
        exfalso
        linarith [hrange.2]
    · by_cases h2 : polyfitSlope data < -(1 / 10)
      · rw [if_neg h1, if_pos h2]
        refine ⟨⟨?_, ?_⟩, ⟨fun _ => h2, fun _ => rfl⟩, ⟨?_, ?_⟩⟩
        · intro heq
          simp at heq
        · intro hinc
          exact absurd hinc h1
        · intro heq
          simp at heq
        · intro hrange
          exfalso
          linarith [hrange.1]
      · rw [if_neg h1, if_neg h2]
        push_neg at h1 h2
        refine ⟨⟨?_, ?_⟩, ⟨?_, ?_⟩, ⟨fun _ => ⟨h2, h1⟩, fun _ => rfl⟩⟩
        · intro heq
          simp at heq
        · intro hinc
          exfalso
          linarith
        · intro heq
          simp at heq
        · intro hdec
          exfalso
          linarith
  · intro m hm
    simp only [analyze_occupancy_patterns, hm, calculate_trend, polyfitSlope]
    norm_num [List.range_succ]

/-- Witness for C9: an engine with no recorded history answers
insufficient data for window 5, and one with history [10, 10, 10, 10, 10]
answers the stable trend. -/
theorem analyze_occupancy_patterns_spec_witness :
    analyze_occupancy_patterns
      { use_rectangles := false, parking_positions := [[0, 0]]
        slot_dimensions := [(107, 48)], default_slot_width := 107
        default_slot_height := 48, occupancy_threshold := 3 / 10
        occupancy_history := [], detection_history := [] } 5 =
      .ok (.insufficient_data 5) ∧
    analyze_occupancy_patterns
      { use_rectangles := false, parking_positions := [[0, 0]]
        slot_dimensions := [(107, 48)], default_slot_width := 107
        default_slot_height := 48, occupancy_threshold := 3 / 10
        occupancy_history := [10, 10, 10, 10, 10]
        detection_history := [12, 12, 12, 12, 12] } 5 =
      .ok (.analysis 5 10 .stable 10 10) := by
  constructor
  · exact analyze_occupancy_patterns_spec.1 _ 5 (by simp)
  · exact analyze_occupancy_patterns_spec.2.2.2.2 _ rfl

/-- C4: when the processing queue is at capacity, both producers drop the
new task: the enqueue is a total function that returns at once, the queue
contents are unchanged, queue_overflows grows by exactly 1 and nothing
else in the state moves; the upload route additionally answers 503 queue
full. -/
theorem queue_overflow_drop (s : ServerState) (task : FrameTask)
    (hfull : 0 < s.queue_maxsize ∧ s.queue_maxsize ≤ s.processing_queue.length) :
    fetcherEnqueue s task =
      { s with stats :=
          { s.stats with queue_overflows := s.stats.queue_overflows + 1 } } ∧
    uploadEnqueue s task =
      ({ s with stats :=
          { s.stats with queue_overflows := s.stats.queue_overflows + 1 } },
        .queueFull) := by
  have hp : put_nowait s.processing_queue s.queue_maxsize task = none := by
    unfold put_nowait
    rw [if_pos hfull]
  constructor
  · unfold fetcherEnqueue
    rw [hp]
  · unfold uploadEnqueue
    rw [hp]

/-- Witness for C4 at a concrete full queue: capacity 1 holding one
task. -/
theorem queue_overflow_drop_witness :
    fetcherEnqueue
      { processing_queue := [⟨0, 0, 0, 0, 0⟩], queue_maxsize := 1
        results_history := [], result_history_maxlen := 1000
        stats := ⟨0, 0, 0, 0, 0, 0⟩ } ⟨1, 1, 1, 1, 1⟩ =
      { processing_queue := [⟨0, 0, 0, 0, 0⟩], queue_maxsize := 1
        results_history := [], result_history_maxlen := 1000
        stats := ⟨0, 0, 0, 1, 0, 0⟩ } ∧
    uploadEnqueue
      { processing_queue := [⟨0, 0, 0, 0, 0⟩], queue_maxsize := 1
        results_history := [], result_history_maxlen := 1000
        stats := ⟨0, 0, 0, 0, 0, 0⟩ } ⟨1, 1, 1, 1, 1⟩ =
      ({ processing_queue := [⟨0, 0, 0, 0, 0⟩], queue_maxsize := 1
         results_history := [], result_history_maxlen := 1000
         stats := ⟨0, 0, 0, 1, 0, 0⟩ }, .queueFull) :=
  queue_overflow_drop
    { processing_queue := [⟨0, 0, 0, 0, 0⟩], queue_maxsize := 1
      results_history := [], result_history_maxlen := 1000
      stats := ⟨0, 0, 0, 0, 0, 0⟩ } ⟨1, 1, 1, 1, 1⟩ (by simp)

/-- C5: when processing a task raises, process_frame_with_yolo absorbs
the exception into a failure record carrying the original task id, camera
id, timestamp (and frame id) together with the error text, appends it to
the bounded results history, increments processing_errors by exactly 1
and leaves everything else alone; the worker step then continues with the
remaining queue as a total function, so the exception never leaves the
worker loop. -/
theorem worker_failure_record (s : ServerState) (task : FrameTask)
    (msg : ℕ) (outcome : Except ℕ ParkingData)
    (houtcome : outcome = .error msg) :
    process_frame_with_yolo s task outcome =
      ({ s with
          results_history := dequeAppend s.result_history_maxlen s.results_history
            { task_id := task.task_id, frame_id := task.frame_id
              camera_id := task.camera_id, timestamp := task.timestamp
              success := false, parking_data := none, error := some msg }
          stats := { s.stats with
            processing_errors := s.stats.processing_errors + 1 } },
        { task_id := task.task_id, frame_id := task.frame_id
          camera_id := task.camera_id, timestamp := task.timestamp
          success := false, parking_data := none, error := some msg }) ∧
    (∀ q, s.processing_queue = task :: q →
      processing_worker_step s outcome =
        { s with
            processing_queue := q
            results_history := dequeAppend s.result_history_maxlen s.results_history
              { task_id := task.task_id, frame_id := task.frame_id
                camera_id := task.camera_id, timestamp := task.timestamp
                success := false, parking_data := none, error := some msg }
            stats := { s.stats with
              processing_errors := s.stats.processing_errors + 1 } }) := by
  subst houtcome
  constructor
  · rfl
  · intro q hq
    unfold processing_worker_step
    rw [hq]
    rfl

/-- Witness for C5 at a concrete state: one queued task whose processing
raises error text 7. -/
theorem worker_failure_record_witness :
    process_frame_with_yolo
      { processing_queue := [⟨3, 4, 5, 6, 7⟩], queue_maxsize := 20
        results_history := [], result_history_maxlen := 1000
        stats := ⟨0, 0, 0, 0, 0, 0⟩ } ⟨3, 4, 5, 6, 7⟩ (.error 7) =
      ({ processing_queue := [⟨3, 4, 5, 6, 7⟩], queue_maxsize := 20
         results_history := [⟨3, 7, 6, 5, false, none, some 7⟩]
         result_history_maxlen := 1000
         stats := ⟨0, 0, 1, 0, 0, 0⟩ },
        ⟨3, 7, 6, 5, false, none, some 7⟩) ∧
    processing_worker_step
      { processing_queue := [⟨3, 4, 5, 6, 7⟩], queue_maxsize := 20
        results_history := [], result_history_maxlen := 1000
        stats := ⟨0, 0, 0, 0, 0, 0⟩ } (.error 7) =
      { processing_queue := [], queue_maxsize := 20
        results_history := [⟨3, 7, 6, 5, false, none, some 7⟩]
        result_history_maxlen := 1000
        stats := ⟨0, 0, 1, 0, 0, 0⟩ } := by
  have h := worker_failure_record
    { processing_queue := [⟨3, 4, 5, 6, 7⟩], queue_maxsize := 20
      results_history := [], result_history_maxlen := 1000
      stats := ⟨0, 0, 0, 0, 0, 0⟩ } ⟨3, 4, 5, 6, 7⟩ 7 (.error 7) rfl
  refine ⟨?_, ?_⟩
  · rw [h.1]
    simp [dequeAppend]
  · rw [h.2 [] rfl]
    simp [dequeAppend]

/-- C6: ensure_authenticated treats a missing token, or a token whose
remaining lifetime expiry - now is below the 300 second margin, as
invalid and performs exactly one fresh login, reporting success only as
the outcome of that login; with expiry - now strictly above 300 seconds
and a token present it reports success with no login call and an
unchanged session. -/
theorem ensure_authenticated_margin (a : AuthManager) (now : ℚ)
    (lo : Option (ℕ × ℚ)) :
    ((a.token = none ∨ a.token_expiry - now < 300) →
      ensure_authenticated a now lo =
        ((login a now lo).1, (login a now lo).2, 1)) ∧
    (300 < a.token_expiry - now → a.token ≠ none →
      ensure_authenticated a now lo = (true, a, 0)) := by
  constructor
  · intro h
    have hv : is_token_valid a now = false := by
      unfold is_token_valid
      cases htok : a.token with
      | none => rfl
      | some tok =>
        rcases h with hnone | hlt
        · rw [htok] at hnone
          cases hnone
        · simp only
          rw [decide_eq_false]
          linarith
    unfold ensure_authenticated
    rw [hv]
    simp
  · intro hgt htok
    have hv : is_token_valid a now = true := by
      unfold is_token_valid
      cases htok2 : a.token with
      | none => exact absurd htok2 htok
      | some tok =>
        simp only
        rw [decide_eq_true]
        linarith
    unfold ensure_authenticated
    rw [hv]
    simp

/-- Witness for C6: a fresh session with no token logs in (and fails when
the peer refuses), while a session whose token still has 1000 seconds of
life is used as-is. -/
theorem ensure_authenticated_margin_witness :
    ensure_authenticated ⟨none, 0⟩ 0 none = (false, ⟨none, 0⟩, 1) ∧
    ensure_authenticated ⟨some 5, 1000⟩ 0 none = (true, ⟨some 5, 1000⟩, 0) := by
  constructor
  · have h := (ensure_authenticated_margin ⟨none, 0⟩ 0 none).1 (Or.inl rfl)
    rw [h]
    rfl
  · exact (ensure_authenticated_margin ⟨some 5, 1000⟩ 0 none).2 (by norm_num)
      (by simp)

/-- Structural facts about the send retry loop, by induction over the
remaining attempts: the loop makes at most as many attempts as offered,
it performs exactly one re-authentication per 401 response among the
attempts made, and when no attempt yields a 201 it reports failure. -/
lemma send_trace_facts (reauth : ℕ → Bool) (outs : List AttemptOutcome) :
    ∀ ndone : ℕ,
      (send_to_updateraw reauth ndone outs).attempts_made ≤ outs.length ∧
      (send_to_updateraw reauth ndone outs).reauths =
        ((outs.take (send_to_updateraw reauth ndone outs).attempts_made).countP
          (fun o => decide (o = AttemptOutcome.http 401))) ∧
      ((∀ o ∈ outs, o ≠ AttemptOutcome.http 201) →
        (send_to_updateraw reauth ndone outs).success = false) := by
  induction outs with
  | nil =>
    intro ndone
    simp [send_to_updateraw]
  | cons o rest ih =>
    intro ndone
    cases o with
    | http status =>
      by_cases h201 : status = 201
      · subst h201
        have hs : send_to_updateraw reauth ndone (.http 201 :: rest) =
            { success := true, attempts_made := 1, reauths := 0, delays := 0 } := by
          simp [send_to_updateraw]
        rw [hs]
        refine ⟨by simp, by simp, ?_⟩
        intro hno
        exact absurd rfl (hno _ (List.mem_cons_self _ _))
      · by_cases h401 : status = 401
        · subst h401
          cases hre : reauth ndone with
          | true =>
            have hs : send_to_updateraw reauth ndone (.http 401 :: rest) =
                { success := (send_to_updateraw reauth (ndone + 1) rest).success
                  attempts_made :=
                    (send_to_updateraw reauth (ndone + 1) rest).attempts_made + 1
                  reauths := (send_to_updateraw reauth (ndone + 1) rest).reauths + 1
                  delays := (send_to_updateraw reauth (ndone + 1) rest).delays } := by
              simp [send_to_updateraw, hre]
            rw [hs]
            obtain ⟨iha, ihr, ihs⟩ := ih (ndone + 1)
            refine ⟨by simpa using Nat.succ_le_succ iha, ?_, ?_⟩
            · rw [List.take_succ_cons, List.countP_cons, ihr]
              simp
            · intro hno
              exact ihs (fun x hx => hno x (List.mem_cons_of_mem _ hx))
          | false =>
            have hs : send_to_updateraw reauth ndone (.http 401 :: rest) =
                { success := false, attempts_made := 1, reauths := 1, delays := 0 } := by
              simp [send_to_updateraw, hre]
            rw [hs]
            exact ⟨by simp, by simp, fun _ => rfl⟩
        · have hs : send_to_updateraw reauth ndone (.http status :: rest) =
              { success := (send_to_updateraw reauth ndone rest).success
                attempts_made := (send_to_updateraw reauth ndone rest).attempts_made + 1
                reauths := (send_to_updateraw reauth ndone rest).reauths
                delays := (send_to_updateraw reauth ndone rest).delays } := by
            simp [send_to_updateraw, h201, h401]
          rw [hs]
          obtain ⟨iha, ihr, ihs⟩ := ih ndone
          refine ⟨by simpa using Nat.succ_le_succ iha, ?_, ?_⟩
          · rw [List.take_succ_cons, List.countP_cons, ihr]
            simp [h401]
          · intro hno
            exact ihs (fun x hx => hno x (List.mem_cons_of_mem _ hx))
    | netFailure =>
      cases rest with
      | nil =>
        have hs : send_to_updateraw reauth ndone [.netFailure] =
            { success := false, attempts_made := 1, reauths := 0, delays := 0 } := by
          simp [send_to_updateraw]
        rw [hs]
        exact ⟨by simp, by simp, fun _ => rfl⟩
      | cons r1 r2 =>
        have hs : send_to_updateraw reauth ndone (.netFailure :: r1 :: r2) =
            { success := (send_to_updateraw reauth ndone (r1 :: r2)).success
              attempts_made :=
                (send_to_updateraw reauth ndone (r1 :: r2)).attempts_made + 1
              reauths := (send_to_updateraw reauth ndone (r1 :: r2)).reauths
              delays := (send_to_updateraw reauth ndone (r1 :: r2)).delays + 1 } := by
          simp [send_to_updateraw]
        rw [hs]
        obtain ⟨iha, ihr, ihs⟩ := ih ndone
        refine ⟨by simpa using Nat.succ_le_succ iha, ?_, ?_⟩
        · rw [List.take_succ_cons, List.countP_cons, ihr]
          simp
        · intro hno
          exact ihs (fun x hx => hno x (List.mem_cons_of_mem _ hx))

/-- C7: within one send, the number of re-authentications equals the
number of 401 responses among the attempts made (each 401 invalidates the
token and triggers exactly one re-authentication), so it is bounded by
the retry attempt count; a 401 whose re-authentication succeeds continues
the retry loop with the refreshed credential instead of aborting; and a
401 whose re-authentication fails makes the send return failure
immediately. -/
theorem send_401_reauth_policy :
    (∀ (reauth : ℕ → Bool) (ndone : ℕ) (outs : List AttemptOutcome),
      (send_to_updateraw reauth ndone outs).reauths =
        ((outs.take (send_to_updateraw reauth ndone outs).attempts_made).countP
          (fun o => decide (o = AttemptOutcome.http 401))) ∧
      (send_to_updateraw reauth ndone outs).reauths ≤ outs.length) ∧
    (∀ (reauth : ℕ → Bool) (ndone : ℕ) (rest : List AttemptOutcome),
      reauth ndone = true →
      send_to_updateraw reauth ndone (.http 401 :: rest) =
        { success := (send_to_updateraw reauth (ndone + 1) rest).success
          attempts_made :=
            (send_to_updateraw reauth (ndone + 1) rest).attempts_made + 1
          reauths := (send_to_updateraw reauth (ndone + 1) rest).reauths + 1
          delays := (send_to_updateraw reauth (ndone + 1) rest).delays }) ∧
    (∀ (reauth : ℕ → Bool) (ndone : ℕ) (rest : List AttemptOutcome),
      reauth ndone = false →
      send_to_updateraw reauth ndone (.http 401 :: rest) =
        { success := false, attempts_made := 1, reauths := 1, delays := 0 }) := by
  refine ⟨?_, ?_, ?_⟩
  · intro reauth ndone outs
    obtain ⟨iha, ihr, ihs⟩ := send_trace_facts reauth outs ndone
    refine ⟨ihr, ?_⟩
    calc (send_to_updateraw reauth ndone outs).reauths
        = _ := ihr
      _ ≤ (outs.take (send_to_updateraw reauth ndone outs).attempts_made).length :=
          List.countP_le_length _
      _ ≤ outs.length := by
          rw [List.length_take]
          omega
  · intro reauth ndone rest hre
    simp [send_to_updateraw, hre]
  · intro reauth ndone rest hre
    simp [send_to_updateraw, hre]

/-- Witness for C7: a 401 answered by a successful re-authentication
continues into a succeeding second attempt, a 401 with a failing
re-authentication aborts after one attempt, and the re-authentication
count is bounded by the attempt count. -/
theorem send_401_reauth_policy_witness :
    send_to_updateraw (fun _ => true) 0 [.http 401, .http 201] =
      { success := true, attempts_made := 2, reauths := 1, delays := 0 } ∧
    send_to_updateraw (fun _ => false) 0 [.http 401, .http 201] =
      { success := false, attempts_made := 1, reauths := 1, delays := 0 } ∧
    (send_to_updateraw (fun _ => true) 0 [.http 401, .http 201]).reauths ≤ 2 := by
  have h1 : send_to_updateraw (fun _ => true) 0 [.http 401, .http 201] =
      { success := true, attempts_made := 2, reauths := 1, delays := 0 } := by
    rw [send_401_reauth_policy.2.1 (fun _ => true) 0 [.http 201] rfl]
    simp [send_to_updateraw]
  refine ⟨h1, send_401_reauth_policy.2.2 (fun _ => false) 0 [.http 201] rfl, ?_⟩
  have h2 := (send_401_reauth_policy.1 (fun _ => true) 0 [.http 401, .http 201]).2
  simpa using h2

/-- Counterexample to C8 as stated: three attempts all answered by HTTP
500 run back to back with zero delays taken, although the claim requires
the fixed delay to elapse between every pair of consecutive attempts
(here twice); the sleep happens only in the network-exception branch of
the loop. -/
theorem send_no_delay_between_http_failures :
    send_to_updateraw (fun _ => true) 0 [.http 500, .http 500, .http 500] =
      { success := false, attempts_made := 3, reauths := 0, delays := 0 } := by
  simp [send_to_updateraw]

/-- C8 amended: a send makes up to K attempts (the length of the outcome
list, default 3) and reports failure when no attempt is answered with
201; the fixed retry delay is slept only after an attempt that failed
with a network exception and is not the final attempt; an attempt failing
with an HTTP error status (and a 401 with successful re-authentication)
proceeds to the next attempt with no delay, and after the final attempt
no delay is ever taken. -/
theorem send_retry_delay_policy :
    (∀ (reauth : ℕ → Bool) (ndone : ℕ) (outs : List AttemptOutcome),
      (send_to_updateraw reauth ndone outs).attempts_made ≤ outs.length) ∧
    (∀ (reauth : ℕ → Bool) (ndone : ℕ) (outs : List AttemptOutcome),
      (∀ o ∈ outs, o ≠ AttemptOutcome.http 201) →
      (send_to_updateraw reauth ndone outs).success = false) ∧
    (∀ (reauth : ℕ → Bool) (ndone : ℕ) (r1 : AttemptOutcome)
        (rest : List AttemptOutcome),
      send_to_updateraw reauth ndone (.netFailure :: r1 :: rest) =
        { success := (send_to_updateraw reauth ndone (r1 :: rest)).success
          attempts_made :=
            (send_to_updateraw reauth ndone (r1 :: rest)).attempts_made + 1
          reauths := (send_to_updateraw reauth ndone (r1 :: rest)).reauths
          delays := (send_to_updateraw reauth ndone (r1 :: rest)).delays + 1 }) ∧
    (∀ (reauth : ℕ → Bool) (ndone : ℕ) (status : ℕ), status ≠ 201 →
      status ≠ 401 → ∀ rest : List AttemptOutcome,
      send_to_updateraw reauth ndone (.http status :: rest) =
        { success := (send_to_updateraw reauth ndone rest).success
          attempts_made := (send_to_updateraw reauth ndone rest).attempts_made + 1
          reauths := (send_to_updateraw reauth ndone rest).reauths
          delays := (send_to_updateraw reauth ndone rest).delays }) ∧
    (∀ (reauth : ℕ → Bool) (ndone : ℕ) (rest : List AttemptOutcome),
      reauth ndone = true →
      (send_to_updateraw reauth ndone (.http 401 :: rest)).delays =
        (send_to_updateraw reauth (ndone + 1) rest).delays) ∧
    (∀ (reauth : ℕ → Bool) (ndone : ℕ) (o : AttemptOutcome),
      (send_to_updateraw reauth ndone [o]).delays = 0) := by
  refine ⟨?_, ?_, ?_, ?_, ?_, ?_⟩
  · intro reauth ndone outs
    exact (send_trace_facts reauth outs ndone).1
  · intro reauth ndone outs
    exact (send_trace_facts reauth outs ndone).2.2
  · intro reauth ndone r1 rest
    simp [send_to_updateraw]
  · intro reauth ndone status h201 h401 rest
    simp [send_to_updateraw, h201, h401]
  · intro reauth ndone rest hre
    simp [send_to_updateraw, hre]
  · intro reauth ndone o
    cases o with
    | http status =>
      by_cases h201 : status = 201
      · subst h201
        simp [send_to_updateraw]
      · by_cases h401 : status = 401
        · subst h401
          cases hre : reauth ndone with
          | true => simp [send_to_updateraw, hre]
          | false => simp [send_to_updateraw, hre]
        · simp [send_to_updateraw, h201, h401]
    | netFailure => simp [send_to_updateraw]

/-- Witness for C8 amended: a network failure on a non-final attempt
takes exactly one delay, an HTTP 500 takes none, and a lone final attempt
never sleeps. -/
theorem send_retry_delay_policy_witness :
    send_to_updateraw (fun _ => true) 0 [.netFailure, .http 500] =
      { success := false, attempts_made := 2, reauths := 0, delays := 1 } ∧
    (send_to_updateraw (fun _ => true) 0 [AttemptOutcome.netFailure]).delays = 0 ∧
    (send_to_updateraw (fun _ => true) 0
      [.http 401, AttemptOutcome.netFailure]).delays = 0 ∧
    (send_to_updateraw (fun _ => true) 0 [.http 500, .http 500]).success = false := by
  refine ⟨?_, ?_, ?_, ?_⟩
  · rw [send_retry_delay_policy.2.2.1 (fun _ => true) 0 (.http 500) []]
    rw [send_retry_delay_policy.2.2.2.1 (fun _ => true) 0 500 (by norm_num)
      (by norm_num) []]
    simp [send_to_updateraw]
  · exact send_retry_delay_policy.2.2.2.2.2 (fun _ => true) 0 .netFailure
  · rw [send_retry_delay_policy.2.2.2.2.1 (fun _ => true) 0
      [AttemptOutcome.netFailure] rfl]
    exact send_retry_delay_policy.2.2.2.2.2 (fun _ => true) 1 .netFailure
  · exact send_retry_delay_policy.2.1 (fun _ => true) 0 [.http 500, .http 500]
      (by simp)

end IntelliLot
